import Mathlib

/-!
Shallow embedding of the DS5 device-model and timestamp-reader core from
`src/ds5.h` (namespace `rsimpl`) of the librealsense repository.

Machine integers are modelled as `Nat`/`Int`; raw frame buffers are lists of
byte values (`List Nat`, each element intended `< 256`); C++ exceptions are
modelled with `Except` over an explicit error type; the per-instance
`recursive_mutex` serializes all reader operations, so each operation is
modelled as a pure state transformer on the reader's channel-state record.
-/

/-- Error kinds thrown by the embedded code: `not_implemented_exception`
carrying the offending pid, and `invalid_value_exception` carrying a message. -/
inductive DsError where
  | notImplemented (pid : Nat)
  | invalidValue (msg : String)
deriving DecidableEq, Repr

/-- The slice of `pixel_format` the DS5 code reads: the four-character code
and the externally supplied image-size computation (from `image.h`, out of
scope here, so kept abstract as a function of width and height). -/
structure PixelFormat where
  fourcc : Nat
  get_image_size : Nat → Nat → Nat

/-- The slice of `stream_profile` the DS5 code reads. -/
structure StreamProfile where
  width : Nat
  height : Nat

/-- The slice of `request_mapping` the DS5 code reads: the pixel format
pointer `pf` and the stream profile. -/
structure RequestMapping where
  pf : PixelFormat
  profile : StreamProfile

/-- The four-character code compared against in
`ds5_timestamp_reader::get_frame_counter`: the literal `0x5a313620` (Z16). -/
def Z16_FOURCC : Nat := 0x5a313620

/-- The four-character code compared against in
`ds5_hid_timestamp_reader::get_frame_counter`: the multi-character literal
`GYRO`, whose value is `0x4759524f`. -/
def GYRO_FOURCC : Nat := 0x4759524f

/-- Per-channel mutable state of a timestamp reader (both variants hold the
same four parallel vectors of length `pins = sensors = 2`), indexed by the
channel (pin/sensor) number. -/
structure ReaderState where
  started : Fin 2 → Bool
  total : Fin 2 → Int
  last_timestamp : Fin 2 → Int
  counter : Fin 2 → Int

/-- `ds5_timestamp_reader::reset` / `ds5_hid_timestamp_reader::reset`:
for every channel set `started` to false and `total`, `last_timestamp`,
`counter` to zero. -/
def reader_reset (_s : ReaderState) : ReaderState :=
  { started := fun _ => false
    total := fun _ => 0
    last_timestamp := fun _ => 0
    counter := fun _ => 0 }

/-- State of a freshly constructed reader: the constructor sizes the vectors
and calls `reset()`. -/
def reader_init : ReaderState :=
  reader_reset { started := fun _ => false
                 total := fun _ => 0
                 last_timestamp := fun _ => 0
                 counter := fun _ => 0 }

/-- The byte scan shared by both `validate_frame` bodies: walk the bytes in
order and return true at the first non-zero one, false if none is found. -/
def scan_nonzero : List Nat → Bool
  | [] => false
  | b :: rest => if b ≠ 0 then true else scan_nonzero rest

/-- `ds5_timestamp_reader::validate_frame`: scan exactly
`mode.pf->get_image_size(mode.profile.width, mode.profile.height)` bytes of
the frame for a non-zero byte.  The method is state-preserving (it only takes
the lock), which the pair result records explicitly. -/
def ds5_validate_frame (mode : RequestMapping) (frame : List Nat)
    (s : ReaderState) : Bool × ReaderState :=
  (scan_nonzero
    (frame.take (mode.pf.get_image_size mode.profile.width mode.profile.height)), s)

/-- `ds5_hid_timestamp_reader::validate_frame`: identical body to the image
variant. -/
def hid_validate_frame (mode : RequestMapping) (frame : List Nat)
    (s : ReaderState) : Bool × ReaderState :=
  (scan_nonzero
    (frame.take (mode.pf.get_image_size mode.profile.width mode.profile.height)), s)

/-- `ds5_timestamp_reader::get_frame_timestamp`: a stub that ignores the
frame and returns 0 (state untouched). -/
def ds5_get_frame_timestamp (_mode : RequestMapping) (_frame : List Nat)
    (s : ReaderState) : Nat × ReaderState :=
  (0, s)

/-- Little-endian read of a 64-bit unsigned integer starting at byte
`off` of the buffer, as performed by the
`*((uint64_t*)((const uint8_t*)frame + timestamp_offset))` cast on a
little-endian host. Bytes past the end of the list read as 0. -/
def read_u64_le (frame : List Nat) (off : Nat) : Nat :=
  (List.range 8).foldr (fun i acc => acc * 256 + frame.getD (off + i) 0) 0

/-- `ds5_hid_timestamp_reader::get_frame_timestamp`: if
`mode.profile.width * mode.profile.height` equals `hid_data_size = 14`,
return the 64-bit value at byte offset `timestamp_offset = 6`; otherwise
return 0.  (The C++ returns the value cast to `double`; the numeric value
read is modelled exactly.) -/
def hid_get_frame_timestamp (mode : RequestMapping) (frame : List Nat)
    (s : ReaderState) : Nat × ReaderState :=
  let frame_size := mode.profile.width * mode.profile.height
  let hid_data_size := 14
  let timestamp_offset := 6
  if frame_size = hid_data_size then
    (read_u64_le frame timestamp_offset, s)
  else
    (0, s)

/-- Channel selection in `ds5_timestamp_reader::get_frame_counter`:
pin 1 for the Z16 four-character code, pin 0 otherwise. -/
def ds5_pin_index (mode : RequestMapping) : Fin 2 :=
  if mode.pf.fourcc = Z16_FOURCC then 1 else 0

/-- Channel selection in `ds5_hid_timestamp_reader::get_frame_counter`:
index 1 for the GYRO sensor-type discriminator, index 0 otherwise. -/
def hid_sensor_index (mode : RequestMapping) : Fin 2 :=
  if mode.pf.fourcc = GYRO_FOURCC then 1 else 0

/-- Common body of both `get_frame_counter` methods, parameterized by the
channel-selection rule: pre-increment the selected channel's counter and
return the incremented value. -/
def counter_step (pin : RequestMapping → Fin 2) (mode : RequestMapping)
    (s : ReaderState) : Int × ReaderState :=
  let i := pin mode
  let c := s.counter i + 1
  (c, { s with counter := Function.update s.counter i c })

/-- `ds5_timestamp_reader::get_frame_counter`: `return ++counter[pin_index]`
with `pin_index` selected by the Z16 code. -/
def ds5_get_frame_counter (mode : RequestMapping) (s : ReaderState) :
    Int × ReaderState :=
  counter_step ds5_pin_index mode s

/-- `ds5_hid_timestamp_reader::get_frame_counter`: `return ++counter[index]`
with `index` selected by the GYRO discriminator. -/
def hid_get_frame_counter (mode : RequestMapping) (s : ReaderState) :
    Int × ReaderState :=
  counter_step hid_sensor_index mode s

/-- Run a sequence of `get_frame_counter` calls (one `RequestMapping` per
call, serialized by the reader's mutex) from a starting state, collecting
each call's request descriptor together with the value it returned. -/
def run_counters (step : RequestMapping → ReaderState → Int × ReaderState) :
    List RequestMapping → ReaderState → List (RequestMapping × Int)
  | [], _ => []
  | m :: rest, s =>
    let r := step m s
    (m, r.1) :: run_counters step rest r.2

/-- The subsequence of returned counter values whose call selected channel
`c`, in call order. -/
def channel_values (pin : RequestMapping → Fin 2)
    (trace : List (RequestMapping × Int)) (c : Fin 2) : List Int :=
  (trace.filter (fun p => pin p.1 = c)).map (fun p => p.2)

/-- Number of calls in the sequence that select channel `c`. -/
def channel_calls (pin : RequestMapping → Fin 2)
    (calls : List RequestMapping) (c : Fin 2) : Nat :=
  calls.countP (fun m => pin m = c)

/-- Modelled from the spec: the DS5 model identifiers `ds::RS400P_PID` etc.
are declared in `ds5-private.h`, which is not part of the sources here; the
spec only requires five distinct identifiers (four single-sub-device models
and one multi-sub-device model).  Concrete distinct values are used. -/
def RS400P_PID : Nat := 0x0ad1

/-- Modelled from the spec: see `RS400P_PID`. -/
def RS410A_PID : Nat := 0x0ad2

/-- Modelled from the spec: see `RS400P_PID`. -/
def RS420R_PID : Nat := 0x0ad3

/-- Modelled from the spec: see `RS400P_PID`. -/
def RS430C_PID : Nat := 0x0ad4

/-- Modelled from the spec: see `RS400P_PID`. -/
def RS450T_PID : Nat := 0x0ad5

/-- The slice of `uvc::uvc_device_info` the DS5 code reads: the product id. -/
structure UvcDeviceInfo where
  pid : Nat
deriving DecidableEq, Repr

/-- Placeholder for `uvc::usb_device_info` (never inspected by the embedded
code). -/
structure UsbDeviceInfo where
  dummy : Unit := ()

/-- Placeholder for `uvc::hid_device_info` (never inspected by the embedded
code). -/
structure HidDeviceInfo where
  dummy : Unit := ()

/-- The member state of `ds5_info`: the grouped depth (image) endpoint
descriptors, the hardware-monitor endpoint and the hid endpoints. -/
structure Ds5Info where
  _depth : List UvcDeviceInfo
  _hwm : UsbDeviceInfo
  _hid : List HidDeviceInfo

/-- The `switch(depth_pid)` of `ds5_info::get_subdevice_count`: four pids map
to 1, `RS450T_PID` maps to 3, everything else throws
`not_implemented_exception` carrying the pid. -/
def subdevice_count_of_pid (depth_pid : Nat) : Except DsError Nat :=
  if depth_pid = RS400P_PID then .ok 1
  else if depth_pid = RS410A_PID then .ok 1
  else if depth_pid = RS420R_PID then .ok 1
  else if depth_pid = RS430C_PID then .ok 1
  else if depth_pid = RS450T_PID then .ok 3
  else .error (.notImplemented depth_pid)

/-- `ds5_info::get_subdevice_count`: reads `_depth.front().pid` and switches
on it.  `front()` on an empty vector is undefined behaviour, modelled as
`none`; otherwise the result is `some` of the switch outcome. -/
def ds5_info_get_subdevice_count (info : Ds5Info) :
    Option (Except DsError Nat) :=
  match info._depth with
  | [] => none
  | d :: _ => some (subdevice_count_of_pid d.pid)

/-- `static_cast<int>(val)` applied to the `float` argument of
`emitter_option::get_value_description`: conversion to int truncates toward
zero.  Float inputs are modelled as exact rationals; truncation toward zero
of `q` is `Int.tdiv q.num q.den`. -/
def cpp_trunc_to_int (q : ℚ) : ℤ :=
  Int.tdiv q.num q.den

/-- `ds5_camera::emitter_option::get_value_description`: switch on
`static_cast<int>(val)`; 0, 1, 2 map to fixed strings, anything else throws
`invalid_value_exception("value not found")`. -/
def get_value_description (val : ℚ) : Except DsError String :=
  let v := cpp_trunc_to_int val
  if v = 0 then .ok "Off"
  else if v = 1 then .ok "On"
  else if v = 2 then .ok "Auto"
  else .error (.invalidValue "value not found")

/-- Modelled from the spec: the body of
`ds5_camera::get_raw_calibration_table` and the `lazy<>` cell
`_coefficients_table_raw` are declared but not defined in the sources here.
Per spec section 4.5 the device holds one cache slot: the first access issues
one hardware-monitor transport request (parameterized by the table id) and
stores the reply; every later access (any table id) returns the cached bytes
without a new request.  The cache slot is `none` while unpopulated; the
result triple is (returned bytes, new cache slot, number of transport
requests issued by this call). -/
def get_raw_calibration_table (request : Nat → List Nat) (table_id : Nat)
    (cache : Option (List Nat)) : List Nat × Option (List Nat) × Nat :=
  match cache with
  | some v => (v, some v, 0)
  | none =>
    let v := request table_id
    (v, some v, 1)

lemma scan_nonzero_iff (l : List Nat) :
    scan_nonzero l = true ↔ ∃ b ∈ l, b ≠ 0 := by
  induction l with
  | nil => simp [scan_nonzero]
  | cons b rest ih =>
    by_cases hb : b = 0 <;> simp [scan_nonzero, hb, ih]

/-- C8: the image-stream reader's `get_frame_timestamp` returns the sentinel
zero for every mode and buffer, leaves the reader state untouched, and its
result does not depend on the buffer at all. -/
theorem ds5_get_frame_timestamp_always_zero :
    ∀ (mode : RequestMapping) (frame frame2 : List Nat) (s : ReaderState),
      (ds5_get_frame_timestamp mode frame s).1 = 0 ∧
      (ds5_get_frame_timestamp mode frame s).2 = s ∧
      ds5_get_frame_timestamp mode frame s = ds5_get_frame_timestamp mode frame2 s := by
  intro mode frame frame2 s
  exact ⟨rfl, rfl, rfl⟩

/-- C5: after `reset()` on either reader variant, the next
`get_frame_counter` call returns 1 whichever channel it selects, for any
prior state; and `reset` zeroes `started`, `total`, `last_timestamp`, and
`counter` of every channel. -/
theorem reset_then_counter_is_one :
    ∀ (s : ReaderState) (mode : RequestMapping) (i : Fin 2),
      (ds5_get_frame_counter mode (reader_reset s)).1 = 1 ∧
      (hid_get_frame_counter mode (reader_reset s)).1 = 1 ∧
      (reader_reset s).started i = false ∧
      (reader_reset s).total i = 0 ∧
      (reader_reset s).last_timestamp i = 0 ∧
      (reader_reset s).counter i = 0 := by
  intro s mode i
  refine ⟨?_, ?_, rfl, rfl, rfl, rfl⟩ <;>
    simp [ds5_get_frame_counter, hid_get_frame_counter, counter_step, reader_reset]

/-- C6: on one device instance, a first `get_raw_calibration_table` call
issues exactly one transport request, and a second call (with any table id)
issues none and returns byte-identical data. -/
theorem calibration_cache_single_request :
    ∀ (request : Nat → List Nat) (t1 t2 : Nat),
      (get_raw_calibration_table request t1 none).2.2 = 1 ∧
      (get_raw_calibration_table request t2
        (get_raw_calibration_table request t1 none).2.1).2.2 = 0 ∧
      (get_raw_calibration_table request t2
        (get_raw_calibration_table request t1 none).2.1).1 =
        (get_raw_calibration_table request t1 none).1 := by
  intro request t1 t2
  exact ⟨rfl, rfl, rfl⟩

/-- C2: the sub-device-count switch maps each of the four single-sub-device
pids to 1, the multi-sub-device pid to 3, and any other pid to a
NotImplemented error carrying that pid — never a silent default. -/
theorem subdevice_count_table :
    subdevice_count_of_pid RS400P_PID = .ok 1 ∧
    subdevice_count_of_pid RS410A_PID = .ok 1 ∧
    subdevice_count_of_pid RS420R_PID = .ok 1 ∧
    subdevice_count_of_pid RS430C_PID = .ok 1 ∧
    subdevice_count_of_pid RS450T_PID = .ok 3 ∧
    ∀ pid : Nat, pid ≠ RS400P_PID → pid ≠ RS410A_PID → pid ≠ RS420R_PID →
      pid ≠ RS430C_PID → pid ≠ RS450T_PID →
      subdevice_count_of_pid pid = .error (.notImplemented pid) := by
  refine ⟨rfl, rfl, rfl, rfl, rfl, ?_⟩
  intro pid h1 h2 h3 h4 h5
  simp [subdevice_count_of_pid, h1, h2, h3, h4, h5]

/-- C2 witness: the table at the recognized pids and at the unrecognized
pid 0. -/
theorem subdevice_count_table_witness :
    subdevice_count_of_pid 0 = .error (.notImplemented 0) :=
  subdevice_count_table.2.2.2.2.2 0 (by decide) (by decide) (by decide)
    (by decide) (by decide)

/-- C9: `get_subdevice_count` reads only the first image-endpoint
descriptor's pid: on an empty image-endpoint list it is undefined (it calls
`front()` with no emptiness check), and any two identity records agreeing on
the first image endpoint produce the same result whatever the remaining
endpoints carry. -/
theorem subdevice_count_uses_front_only :
    (∀ info : Ds5Info, info._depth = [] →
      ds5_info_get_subdevice_count info = none) ∧
    (∀ (d : UvcDeviceInfo) (rest : List UvcDeviceInfo) (hwm : UsbDeviceInfo)
        (hid : List HidDeviceInfo),
      ds5_info_get_subdevice_count ⟨d :: rest, hwm, hid⟩ =
        some (subdevice_count_of_pid d.pid)) ∧
    (∀ (d : UvcDeviceInfo) (rest rest2 : List UvcDeviceInfo)
        (hwm hwm2 : UsbDeviceInfo) (hid hid2 : List HidDeviceInfo),
      ds5_info_get_subdevice_count ⟨d :: rest, hwm, hid⟩ =
        ds5_info_get_subdevice_count ⟨d :: rest2, hwm2, hid2⟩) := by
  refine ⟨?_, ?_, ?_⟩
  · intro info h
    simp [ds5_info_get_subdevice_count, h]
  · intro d rest hwm hid
    rfl
  · intro d rest rest2 hwm hwm2 hid hid2
    rfl

/-- C9 witness: the empty-list case at a concrete record, and the
first-descriptor dependence at concrete records. -/
theorem subdevice_count_uses_front_only_witness :
    ds5_info_get_subdevice_count ⟨[], {}, []⟩ = none :=
  subdevice_count_uses_front_only.1 ⟨[], {}, []⟩ rfl

lemma scan_nonzero_take_iff :
    ∀ (n : Nat) (l : List Nat), n ≤ l.length →
      (scan_nonzero (l.take n) = true ↔ ∃ i < n, l.getD i 0 ≠ 0) := by
  intro n
  induction n with
  | zero =>
    intro l _
    simp [scan_nonzero]
  | succ n ih =>
    intro l h
    match l with
    | [] => simp at h
    | b :: rest =>
      rw [List.take_succ_cons]
      by_cases hb : b = 0
      · subst hb
        have step : scan_nonzero (0 :: rest.take n) = scan_nonzero (rest.take n) := by
          simp [scan_nonzero]
        rw [step, ih rest (by simpa using h)]
        constructor
        · rintro ⟨i, hi, hne⟩
          exact ⟨i + 1, by omega, by simpa using hne⟩
        · rintro ⟨i, hi, hne⟩
          match i with
          | 0 => simp at hne
          | j + 1 => exact ⟨j, by omega, by simpa using hne⟩
      · have step : scan_nonzero (b :: rest.take n) = true := by
          simp [scan_nonzero, hb]
        rw [step]
        constructor
        · intro _
          exact ⟨0, by omega, by simpa using hb⟩
        · intro _
          rfl

/-- C4: for every mode and buffer at least as long as the computed image
size, `validate_frame` (both reader variants) returns true exactly when one
of the first `image_size(width, height)` bytes is non-zero — so false on an
all-zero prefix and on a zero byte count — and the reader state is left
unchanged. -/
theorem validate_frame_iff_nonzero_byte :
    ∀ (mode : RequestMapping) (frame : List Nat) (s : ReaderState),
      mode.pf.get_image_size mode.profile.width mode.profile.height ≤ frame.length →
      (((ds5_validate_frame mode frame s).1 = true ↔
          ∃ i < mode.pf.get_image_size mode.profile.width mode.profile.height,
            frame.getD i 0 ≠ 0) ∧
        (ds5_validate_frame mode frame s).2 = s ∧
        ((hid_validate_frame mode frame s).1 = true ↔
          ∃ i < mode.pf.get_image_size mode.profile.width mode.profile.height,
            frame.getD i 0 ≠ 0) ∧
        (hid_validate_frame mode frame s).2 = s) := by
  intro mode frame s h
  refine ⟨?_, rfl, ?_, rfl⟩ <;>
    exact scan_nonzero_take_iff _ frame h

/-- C4 witness: a two-byte buffer whose second byte is non-zero, at a mode
whose image size computes to 2. -/
theorem validate_frame_iff_nonzero_byte_witness :
    (ds5_validate_frame ⟨⟨0, fun w h => w * h⟩, ⟨1, 2⟩⟩ [0, 5] reader_init).1 = true := by
  have hlen : (⟨⟨0, fun w h => w * h⟩, ⟨1, 2⟩⟩ : RequestMapping).pf.get_image_size 1 2 ≤
      ([0, 5] : List Nat).length := by decide
  have h := (validate_frame_iff_nonzero_byte ⟨⟨0, fun w h => w * h⟩, ⟨1, 2⟩⟩
    [0, 5] reader_init hlen).1
  exact h.mpr ⟨1, by decide, by decide⟩

/-- C3: the inertial reader's `get_frame_timestamp` returns 0 whenever the
profile's element count `width * height` differs from 14, and on a 14-element
payload returns the little-endian 64-bit value formed from bytes 6 through
13; the reader state is untouched. -/
theorem hid_timestamp_of_payload :
    ∀ (mode : RequestMapping) (frame : List Nat) (s : ReaderState),
      (mode.profile.width * mode.profile.height ≠ 14 →
        (hid_get_frame_timestamp mode frame s).1 = 0) ∧
      (mode.profile.width * mode.profile.height = 14 →
        (hid_get_frame_timestamp mode frame s).1 =
          frame.getD 6 0 + frame.getD 7 0 * 2 ^ 8 + frame.getD 8 0 * 2 ^ 16 +
          frame.getD 9 0 * 2 ^ 24 + frame.getD 10 0 * 2 ^ 32 +
          frame.getD 11 0 * 2 ^ 40 + frame.getD 12 0 * 2 ^ 48 +
          frame.getD 13 0 * 2 ^ 56) ∧
      (hid_get_frame_timestamp mode frame s).2 = s := by
  intro mode frame s
  refine ⟨?_, ?_, ?_⟩
  · intro h
    simp [hid_get_frame_timestamp, h]
  · intro h
    have : List.range 8 = [0, 1, 2, 3, 4, 5, 6, 7] := rfl
    simp only [hid_get_frame_timestamp, h, if_true, read_u64_le, this, List.foldr]
    ring
  · by_cases h : mode.profile.width * mode.profile.height = 14 <;>
      simp [hid_get_frame_timestamp, h]

/-- C3 witness: a 14-element payload whose bytes at offsets 6 and 7 are 1
and 2, yielding timestamp 513, under a 2-by-7 profile. -/
theorem hid_timestamp_of_payload_witness :
    (2 : Nat) * 7 = 14 ∧
    (hid_get_frame_timestamp ⟨⟨0, fun _ _ => 0⟩, ⟨2, 7⟩⟩
      [0, 0, 0, 0, 0, 0, 1, 2, 0, 0, 0, 0, 0, 0] reader_init).1 = 513 := by
  refine ⟨rfl, ?_⟩
  have h := (hid_timestamp_of_payload ⟨⟨0, fun _ _ => 0⟩, ⟨2, 7⟩⟩
    [0, 0, 0, 0, 0, 0, 1, 2, 0, 0, 0, 0, 0, 0] reader_init).2.1 rfl
  simpa using h

lemma cpp_trunc_to_int_of_nonneg (q : ℚ) (h : 0 ≤ q) :
    cpp_trunc_to_int q = ⌊q⌋ := by
  unfold cpp_trunc_to_int
  rw [Int.tdiv_eq_ediv (Rat.num_nonneg.mpr h) (Int.natCast_nonneg q.den)]
  exact Rat.floor_def.symm

lemma cpp_trunc_to_int_intCast (n : ℤ) :
    cpp_trunc_to_int (n : ℚ) = n := by
  unfold cpp_trunc_to_int
  rw [Rat.num_intCast, Rat.den_intCast]
  exact_mod_cast Int.tdiv_one n

/-- C7: `get_value_description` maps 0, 1, 2 to "Off", "On", "Auto" and
fails with InvalidValue on every other integer input. -/
theorem emitter_describe_integers :
    get_value_description 0 = .ok "Off" ∧
    get_value_description 1 = .ok "On" ∧
    get_value_description 2 = .ok "Auto" ∧
    ∀ n : ℤ, n ≠ 0 → n ≠ 1 → n ≠ 2 →
      get_value_description (n : ℚ) = .error (.invalidValue "value not found") := by
  refine ⟨?_, ?_, ?_, ?_⟩
  · have h : cpp_trunc_to_int 0 = 0 := by
      simpa using cpp_trunc_to_int_intCast 0
    simp [get_value_description, h]
  · have h : cpp_trunc_to_int 1 = 1 := by
      simpa using cpp_trunc_to_int_intCast 1
    simp [get_value_description, h]
  · have h : cpp_trunc_to_int 2 = 2 := by
      simpa using cpp_trunc_to_int_intCast 2
    simp [get_value_description, h]
  · intro n h0 h1 h2
    simp [get_value_description, cpp_trunc_to_int_intCast, h0, h1, h2]

/-- C7 witness: the interpreter rejects 3 and -1 with InvalidValue. -/
theorem emitter_describe_integers_witness :
    get_value_description ((3 : ℤ) : ℚ) = .error (.invalidValue "value not found") ∧
    get_value_description ((-1 : ℤ) : ℚ) = .error (.invalidValue "value not found") :=
  ⟨emitter_describe_integers.2.2.2 3 (by decide) (by decide) (by decide),
   emitter_describe_integers.2.2.2 (-1) (by decide) (by decide) (by decide)⟩

/-- C10: the interpreter truncates its floating-point input toward zero
before the lookup: every input in [0, 3) — integral or not — succeeds with
the string selected by the truncated value, and InvalidValue occurs exactly
when the truncated value is outside 0, 1, 2. -/
theorem emitter_describe_truncates :
    (∀ q : ℚ, 0 ≤ q → q < 3 →
      get_value_description q =
        .ok (if q < 1 then "Off" else if q < 2 then "On" else "Auto")) ∧
    (∀ q : ℚ,
      get_value_description q = .error (.invalidValue "value not found") ↔
        (cpp_trunc_to_int q ≠ 0 ∧ cpp_trunc_to_int q ≠ 1 ∧ cpp_trunc_to_int q ≠ 2)) := by
  constructor
  · intro q h0 h3
    have ht : cpp_trunc_to_int q = ⌊q⌋ := cpp_trunc_to_int_of_nonneg q h0
    by_cases h1 : q < 1
    · have hf : ⌊q⌋ = 0 := by
        rw [Int.floor_eq_iff]
        constructor <;> push_cast <;> linarith
      simp [get_value_description, ht, hf, h1]
    · by_cases h2 : q < 2
      · have hf : ⌊q⌋ = 1 := by
          rw [Int.floor_eq_iff]
          constructor <;> push_cast <;> linarith
        simp [get_value_description, ht, hf, h1, h2]
      · have hf : ⌊q⌋ = 2 := by
          rw [Int.floor_eq_iff]
          constructor <;> push_cast <;> linarith
        simp [get_value_description, ht, hf, h1, h2]
  · intro q
    by_cases c0 : cpp_trunc_to_int q = 0
    · simp [get_value_description, c0]
    · by_cases c1 : cpp_trunc_to_int q = 1
      · simp [get_value_description, c0, c1]
      · by_cases c2 : cpp_trunc_to_int q = 2
        · simp [get_value_description, c0, c1, c2]
        · simp [get_value_description, c0, c1, c2]

/-- C10 witness: 29/10 truncates to 2 and is described as "Auto"; 1/2
truncates to 0 and is described as "Off". -/
theorem emitter_describe_truncates_witness :
    get_value_description (mkRat 29 10) =
      .ok (if mkRat 29 10 < 1 then "Off" else if mkRat 29 10 < 2 then "On" else "Auto") ∧
    get_value_description (mkRat 1 2) =
      .ok (if mkRat 1 2 < 1 then "Off" else if mkRat 1 2 < 2 then "On" else "Auto") :=
  ⟨emitter_describe_truncates.1 (mkRat 29 10) (by decide) (by decide),
   emitter_describe_truncates.1 (mkRat 1 2) (by decide) (by decide)⟩

lemma channel_values_cons (pin : RequestMapping → Fin 2) (m : RequestMapping)
    (v : Int) (tr : List (RequestMapping × Int)) (c : Fin 2) :
    channel_values pin ((m, v) :: tr) c =
      if pin m = c then v :: channel_values pin tr c
      else channel_values pin tr c := by
  by_cases h : pin m = c <;> simp [channel_values, List.filter_cons, h]

lemma channel_calls_cons (pin : RequestMapping → Fin 2) (m : RequestMapping)
    (rest : List RequestMapping) (c : Fin 2) :
    channel_calls pin (m :: rest) c =
      channel_calls pin rest c + if pin m = c then 1 else 0 := by
  by_cases h : pin m = c <;> simp [channel_calls, List.countP_cons, h]

lemma channel_values_counter_run (pin : RequestMapping → Fin 2) :
    ∀ (calls : List RequestMapping) (s : ReaderState) (c : Fin 2),
      channel_values pin (run_counters (counter_step pin) calls s) c =
        (List.range (channel_calls pin calls c)).map
          (fun k => s.counter c + (k + 1 : Nat)) := by
  intro calls
  induction calls with
  | nil =>
    intro s c
    simp [run_counters, channel_values, channel_calls]
  | cons m rest ih =>
    intro s c
    rw [show run_counters (counter_step pin) (m :: rest) s =
        (m, s.counter (pin m) + 1) ::
          run_counters (counter_step pin) rest
            { s with counter := Function.update s.counter (pin m) (s.counter (pin m) + 1) }
      from rfl]
    rw [channel_values_cons, channel_calls_cons]
    by_cases h : pin m = c
    · rw [if_pos h, if_pos h, ih]
      have hc : (Function.update s.counter (pin m) (s.counter (pin m) + 1)) c =
          s.counter c + 1 := by
        rw [h, Function.update_same]
      rw [List.range_succ_eq_map]
      simp only [List.map_cons, List.map_map]
      congr 1
      · rw [h]
        push_cast
        ring
      · apply List.map_congr_left
        intro a _
        simp only [Function.comp_apply, hc]
        push_cast
        ring
    · rw [if_neg h, if_neg h, ih]
      have hc : (Function.update s.counter (pin m) (s.counter (pin m) + 1)) c =
          s.counter c := by
        exact Function.update_noteq (fun hne => h hne.symm) _ _
      simp only [Nat.add_zero]
      apply List.map_congr_left
      intro a _
      rw [hc]

/-- C1: on a freshly constructed reader of either variant, the counter
values returned for a given channel by any interleaved sequence of
`get_frame_counter` calls are exactly 1, 2, 3, ... — one fresh value per
call on that channel, independent of the calls on the other channel. -/
theorem get_frame_counter_sequential :
    ∀ (calls : List RequestMapping) (c : Fin 2),
      channel_values ds5_pin_index
          (run_counters ds5_get_frame_counter calls reader_init) c =
        (List.range (channel_calls ds5_pin_index calls c)).map
          (fun k => ((k + 1 : Nat) : ℤ)) ∧
      channel_values hid_sensor_index
          (run_counters hid_get_frame_counter calls reader_init) c =
        (List.range (channel_calls hid_sensor_index calls c)).map
          (fun k => ((k + 1 : Nat) : ℤ)) := by
  intro calls c
  constructor
  · have e : run_counters ds5_get_frame_counter calls reader_init =
        run_counters (counter_step ds5_pin_index) calls reader_init := rfl
    rw [e, channel_values_counter_run]
    apply List.map_congr_left
    intro a _
    have h0 : reader_init.counter c = 0 := rfl
    rw [h0, zero_add]
  · have e : run_counters hid_get_frame_counter calls reader_init =
        run_counters (counter_step hid_sensor_index) calls reader_init := rfl
    rw [e, channel_values_counter_run]
    apply List.map_congr_left
    intro a _
    have h0 : reader_init.counter c = 0 := rfl
    rw [h0, zero_add]
